import Mathlib

/-!
Verification of the codapt client (`src/index.ts`, the socket.io remote
execution agent).  The agent's mutable module state, its timer usage and
each socket event handler are embedded as pure Lean definitions; the
asynchronous `runCommand` promise is embedded as a function from the
child-process outcome to the resolved/rejected value.
-/

namespace Codapt

/-- Shape `CommandPayload` from the shared types: `{command, stdin, timeoutMs}`.
`stdin: string | null` becomes `Option String`, `timeoutMs: number | null`
becomes `Option Nat`. -/
structure CommandPayload where
  command : String
  stdin : Option String
  timeoutMs : Option Nat
  deriving Repr, DecidableEq

/-- Shape `CommandResponse` from the shared types: `{exitCode, stdout, stderr}`. -/
structure CommandResponse where
  exitCode : Int
  stdout : String
  stderr : String
  deriving Repr, DecidableEq

/-- The `error` argument of the Node `exec` completion callback, reduced to
the field the client reads: `error.code`, which is absent when the child was
killed by a signal (in particular after the `timeout` option fired). -/
structure ExecError where
  code : Option Int
  deriving Repr, DecidableEq

/-- How the `exec` child process run can end, as observed by `runCommand`:
either the completion callback fires (with an optional error object and the
captured streams), or the child emits an `error` event (spawn failure). -/
inductive ExecOutcome where
  | completed (error : Option ExecError) (stdout : String) (stderr : String)
  | errorEvent (message : String)
  deriving Repr, DecidableEq

/-- JavaScript `error.code || -1`: `||` takes the right operand on any falsy
left operand, so both an absent code and a code of `0` give `-1`. -/
def jsCodeOrNegOne (code : Option Int) : Int :=
  match code with
  | some c => if c = 0 then -1 else c
  | none => -1

/-- The body of the `exec` completion callback in `runCommand`:
`error` present resolves `{exitCode: error.code || -1, stdout, stderr}`,
`error` absent resolves `{exitCode: 0, stdout, stderr}`. -/
def execCallback (error : Option ExecError) (stdout stderr : String) :
    CommandResponse :=
  match error with
  | some e => { exitCode := jsCodeOrNegOne e.code, stdout := stdout, stderr := stderr }
  | none => { exitCode := 0, stdout := stdout, stderr := stderr }

/-- A promise settles as a resolution or a rejection; `runCommand` uses both
paths, and both carry a `CommandResponse`-shaped value. -/
inductive RunResult where
  | resolved (r : CommandResponse)
  | rejected (r : CommandResponse)
  deriving Repr, DecidableEq

/-- The settlement of the `runCommand` promise for a given child outcome:
the completion callback resolves via `execCallback`; the `error` event
handler rejects with `{exitCode: -1, stdout: "", stderr: err.message}`. -/
def runCommandResult (outcome : ExecOutcome) : RunResult :=
  match outcome with
  | .completed e out err => .resolved (execCallback e out err)
  | .errorEvent msg => .rejected { exitCode := -1, stdout := "", stderr := msg }

/-- The value the `runCommand` socket handler passes to the acknowledgment
callback: `.then((response) => callback(response))` on resolution and
`.catch((error) => callback(error))` on rejection. -/
def runCommandAck (outcome : ExecOutcome) : CommandResponse :=
  match runCommandResult outcome with
  | .resolved r => r
  | .rejected r => r

/-- Modelled from the spec and the Node `exec` contract the source relies on:
a child that runs to a normal exit with status `c` invokes the completion
callback with no error when `c = 0` and with an error whose `code` is `c`
otherwise. -/
def execOutcomeOfExit (c : Int) (stdout stderr : String) : ExecOutcome :=
  if c = 0 then .completed none stdout stderr
  else .completed (some { code := some c }) stdout stderr

/-- Modelled from the spec and the Node `exec` contract the source relies on:
when the `timeout` option fires, the child is killed by a signal and the
completion callback receives an error object with no numeric `code`, together
with the output captured before termination. -/
def execOutcomeOfTimeout (stdout stderr : String) : ExecOutcome :=
  .completed (some { code := none }) stdout stderr

/-- The option object `runCommand` passes to `exec`:
`{ timeout: timeoutMs ?? undefined }`, i.e. the request's deadline is handed
to `exec` unchanged. -/
def execTimeoutOption (payload : CommandPayload) : Option Nat :=
  payload.timeoutMs

/-- One action taken on the child's standard input stream. -/
inductive StdinAction where
  | write (s : String)
  | close
  deriving Repr, DecidableEq

/-- The actions `runCommand` performs on `child.stdin` right after spawning:
`if (stdin != null) { child.stdin.write(stdin); child.stdin.end(); }`. -/
def stdinActions (stdin : Option String) : List StdinAction :=
  match stdin with
  | some s => [.write s, .close]
  | none => []

/-- Everything written to the child's standard input, in order. -/
def writtenInput (acts : List StdinAction) : String :=
  match acts with
  | [] => ""
  | .write s :: rest => s ++ writtenInput rest
  | .close :: rest => writtenInput rest

/-- Whether the stream is closed once and only after all writes, so the child
observes end-of-input right after the written data. -/
def closedAfterWrites (acts : List StdinAction) : Bool :=
  match acts with
  | [] => false
  | [.close] => true
  | .write _ :: rest => closedAfterWrites rest
  | .close :: _ => false

/- ### Terminal state machine -/

/-- An armed timer: either the spinner redraw interval from `setInterval`
in `startLoading` (which captures the status text), or the one-shot
deadline from `setTimeout` in `startLoading`. -/
inductive Timer where
  | interval (id : Nat) (text : String)
  | deadline (id : Nat)
  deriving Repr, DecidableEq

def Timer.id : Timer → Nat
  | .interval i _ => i
  | .deadline i => i

def Timer.isInterval : Timer → Bool
  | .interval _ _ => true
  | .deadline _ => false

/-- The client's module-level mutable state, plus the observable traces:
`output` records every `process.stdout.write`, `log` every `console.log`
from `debugLog`, `resolvedLines` every value passed to a `readStdin`
acknowledgment.  `timers` holds the currently armed timers; `loadingInterval`
mirrors the module variable of the same name.  `stdinListening` is true
between `process.stdin.once("data", ...)` and the arrival of the chunk.
`exited` is set by `process.exit`. -/
structure ClientState where
  timers : List Timer
  loadingInterval : Option Nat
  lastLoadingLineWritten : String
  spinnerIndex : Nat
  nextTimerId : Nat
  stdinListening : Bool
  exited : Option Int
  debug : Bool
  output : List String
  log : List String
  resolvedLines : List String
  deriving Repr, DecidableEq

/-- The ANSI sequence `clearLine` writes: `"\u001b[0G\u001b[2K"`. -/
def clearLineSeq : String := "\x1b[0G\x1b[2K"

def writeStdout (s : ClientState) (t : String) : ClientState :=
  { s with output := s.output ++ [t] }

/-- Helper `clearLine()`. -/
def clearLine (s : ClientState) : ClientState :=
  writeStdout s clearLineSeq

/-- Helper `writeLastLoadingLine()`. -/
def writeLastLoadingLine (s : ClientState) : ClientState :=
  writeStdout s s.lastLoadingLineWritten

/-- Helper `debugLog(message)`: logs with the fixed prefix only when the
`CODAPT_DEBUG` toggle is set. -/
def debugLog (s : ClientState) (message : String) : ClientState :=
  if s.debug then
    { s with log := s.log ++ ["[CODAPT CLIENT DEBUG] " ++ message] }
  else s

def removeTimer (ts : List Timer) (id : Nat) : List Timer :=
  ts.filter (fun t => t.id ≠ id)

/-- Helper `stopLoading()`: when an interval is recorded, `clearInterval` it, null
the record and clear the line; otherwise do nothing.  Note it touches only
the recorded interval, never a pending deadline `setTimeout`. -/
def stopLoading (s : ClientState) : ClientState :=
  match s.loadingInterval with
  | some id =>
      clearLine { s with timers := removeTimer s.timers id, loadingInterval := none }
  | none => s

def timeoutMsText : Option Nat → String
  | some n => toString n
  | none => "null"

/-- Helper `startLoading(text, timeoutMs)`: `stopLoading()` first, debug-log, then
arm the deadline `setTimeout` when `timeoutMs` is non-null (its handle is
discarded, never cleared), and finally arm the spinner `setInterval`,
recording its handle in `loadingInterval` and resetting the spinner index. -/
def startLoading (s : ClientState) (text : String) (timeoutMs : Option Nat) :
    ClientState :=
  let s1 := stopLoading s
  let s2 := debugLog s1 ("Starting loading: " ++ text ++ " with timeoutMs=" ++
    timeoutMsText timeoutMs)
  let s3 :=
    match timeoutMs with
    | some _ =>
        { s2 with timers := s2.timers ++ [Timer.deadline s2.nextTimerId],
                  nextTimerId := s2.nextTimerId + 1 }
    | none => s2
  { s3 with timers := s3.timers ++ [Timer.interval s3.nextTimerId text],
            loadingInterval := some s3.nextTimerId,
            nextTimerId := s3.nextTimerId + 1,
            spinnerIndex := 0 }

def spinnerChars : List String := ["|", "/", "-", "\\"]

/-- One tick of the spinner `setInterval` callback: clear the line, record
and write `spinnerChars[i] + " " + text`, advance `i` modulo 4. -/
def intervalTick (s : ClientState) (text : String) : ClientState :=
  let s1 := clearLine s
  let line := (spinnerChars.getD s1.spinnerIndex "") ++ " " ++ text
  let s2 := writeLastLoadingLine { s1 with lastLoadingLineWritten := line }
  { s2 with spinnerIndex := (s2.spinnerIndex + 1) % 4 }

/-- Firing the armed timer with handle `id`: a spinner interval runs a tick
(and stays armed); a deadline `setTimeout` disarms itself and runs its
callback, which is `stopLoading()`. -/
def fireTimer (s : ClientState) (id : Nat) : ClientState :=
  match s.timers.find? (fun t => t.id == id) with
  | some (Timer.interval _ text) => intervalTick s text
  | some (Timer.deadline i) => stopLoading { s with timers := removeTimer s.timers i }
  | none => s

/- ### Protocol bridge: inbound events -/

/-- The inbound occurrences the event loop dispatches: the socket events of
`ServerToClientEvents`, plus a timer firing and a chunk arriving on local
standard input.  A `runCommand` event carries the outcome of its child
process so the (asynchronous) acknowledgment is determined. -/
inductive Event where
  | runCommand (payload : CommandPayload) (outcome : ExecOutcome)
  | print (text : String)
  | readStdin
  | startLoadingEvent (text : String) (timeoutMs : Option Nat)
  | stopLoadingEvent
  | getEnvInfo
  | terminate
  | disconnect
  | timerFire (id : Nat)
  | stdinData (chunk : String)
  deriving Repr, DecidableEq

/-- The `print` handler: if an interval is armed, clear the line; write the
text verbatim; if an interval is armed, rewrite the last loading line. -/
def handlePrint (s : ClientState) (text : String) : ClientState :=
  let s1 := if s.loadingInterval.isSome then clearLine s else s
  let s2 := writeStdout s1 text
  if s2.loadingInterval.isSome then writeLastLoadingLine s2 else s2

/-- The `readStdin` handler: `stopLoading()`, then resume stdin and register
a one-shot `data` listener. -/
def handleReadStdin (s : ClientState) : ClientState :=
  let s1 := stopLoading s
  { s1 with stdinListening := true }

/-- Delivery of a chunk on local standard input: the one-shot listener (when
registered) pauses stdin and acknowledges with `text.toString()`, i.e. the
chunk verbatim. -/
def handleStdinData (s : ClientState) (chunk : String) : ClientState :=
  if s.stdinListening then
    { s with stdinListening := false, resolvedLines := s.resolvedLines ++ [chunk] }
  else s

/-- Dispatch of one inbound occurrence, translated handler by handler from
the `socket.on` registrations.  After `process.exit` nothing further is
dispatched. -/
def handleEvent (s : ClientState) (e : Event) : ClientState :=
  match s.exited with
  | some _ => s
  | none =>
    match e with
    | .runCommand payload _ => debugLog s ("Received command: " ++ payload.command)
    | .print text => handlePrint s text
    | .readStdin => handleReadStdin s
    | .startLoadingEvent text timeoutMs => startLoading s text timeoutMs
    | .stopLoadingEvent => debugLog (stopLoading s) "Stopping loading"
    | .getEnvInfo => debugLog s "Received getEnvInfo request"
    | .terminate => { debugLog s "Terminating" with exited := some 0 }
    | .disconnect =>
        { debugLog s "Disconnected from server, terminating..." with exited := some 0 }
    | .timerFire id => fireTimer s id
    | .stdinData chunk => handleStdinData s chunk

/-- The state at module load, before `main` runs. -/
def initState (debug : Bool) : ClientState :=
  { timers := [], loadingInterval := none, lastLoadingLineWritten := "",
    spinnerIndex := 0, nextTimerId := 0, stdinListening := false,
    exited := none, debug := debug, output := [], log := [],
    resolvedLines := [] }

/-- Number of armed spinner redraw intervals. -/
def intervalCount (ts : List Timer) : Nat :=
  (ts.filter Timer.isInterval).length

/-- Written from the spec sentence for `captureLine`, to compare against the
code: a resolved value is "exactly one line" when it contains no line
separator other than possibly a single trailing one. -/
def isExactlyOneLine (s : String) : Bool :=
  let cs := s.data
  let core := if cs.getLast? = some '\n' then cs.dropLast else cs
  decide (∀ c ∈ core, c ≠ '\n')

/- ### Helper lemmas -/

theorem writeStdout_log (s : ClientState) (t : String) :
    (writeStdout s t).log = s.log := rfl

theorem clearLine_log (s : ClientState) : (clearLine s).log = s.log := rfl

theorem stopLoading_log (s : ClientState) : (stopLoading s).log = s.log := by
  unfold stopLoading
  cases h : s.loadingInterval <;> simp [clearLine, writeStdout]

theorem stopLoading_loadingInterval (s : ClientState) :
    (stopLoading s).loadingInterval = none := by
  unfold stopLoading
  cases h : s.loadingInterval <;> simp [clearLine, writeStdout, h]

theorem debugLog_off (s : ClientState) (m : String) (h : s.debug = false) :
    debugLog s m = s := by
  simp [debugLog, h]

theorem debugLog_exited (s : ClientState) (m : String) :
    (debugLog s m).exited = s.exited := by
  unfold debugLog
  split <;> rfl

theorem intervalTick_log (s : ClientState) (t : String) :
    (intervalTick s t).log = s.log := rfl

theorem fireTimer_log (s : ClientState) (i : Nat) :
    (fireTimer s i).log = s.log := by
  unfold fireTimer
  split
  · exact intervalTick_log _ _
  · exact stopLoading_log _
  · rfl

theorem stopLoading_debug (s : ClientState) : (stopLoading s).debug = s.debug := by
  unfold stopLoading
  cases h : s.loadingInterval <;> simp [clearLine, writeStdout]

theorem stopLoading_exited (s : ClientState) : (stopLoading s).exited = s.exited := by
  unfold stopLoading
  cases h : s.loadingInterval <;> simp [clearLine, writeStdout]

theorem startLoading_log_off (s : ClientState) (text : String) (tm : Option Nat)
    (h : s.debug = false) :
    (startLoading s text tm).log = s.log := by
  have hd : (stopLoading s).debug = false := by rw [stopLoading_debug]; exact h
  cases tm <;> simp [startLoading, debugLog_off _ _ hd, stopLoading_log]

theorem startLoading_log_on (s : ClientState) (text : String) (tm : Option Nat)
    (h : s.debug = true) :
    (startLoading s text tm).log = s.log ++
      ["[CODAPT CLIENT DEBUG] " ++ ("Starting loading: " ++ text ++
        " with timeoutMs=" ++ timeoutMsText tm)] := by
  have hd : (stopLoading s).debug = true := by rw [stopLoading_debug]; exact h
  cases tm <;> simp [startLoading, debugLog, hd, stopLoading_log]

theorem handlePrint_log (s : ClientState) (t : String) :
    (handlePrint s t).log = s.log := by
  unfold handlePrint
  by_cases h : s.loadingInterval.isSome <;>
    simp [h, clearLine, writeStdout, writeLastLoadingLine]

theorem handleStdinData_log (s : ClientState) (c : String) :
    (handleStdinData s c).log = s.log := by
  unfold handleStdinData
  by_cases h : s.stdinListening <;> simp [h]

theorem handleEvent_log_off (s : ClientState) (e : Event) (h : s.debug = false) :
    (handleEvent s e).log = s.log := by
  cases he : s.exited with
  | some c => simp [handleEvent, he]
  | none =>
      have hd : (stopLoading s).debug = false := by rw [stopLoading_debug]; exact h
      cases e <;>
        simp [handleEvent, he, handlePrint_log, handleReadStdin, handleStdinData_log,
          debugLog_off _ _ h, debugLog_off _ _ hd, startLoading_log_off _ _ _ h,
          stopLoading_log, fireTimer_log]

theorem handleEvent_after_exit (s : ClientState) (e : Event) (c : Int)
    (h : s.exited = some c) : handleEvent s e = s := by
  simp [handleEvent, h]

theorem debugLog_timers (s : ClientState) (m : String) :
    (debugLog s m).timers = s.timers := by
  unfold debugLog
  split <;> rfl

theorem debugLog_nextTimerId (s : ClientState) (m : String) :
    (debugLog s m).nextTimerId = s.nextTimerId := by
  unfold debugLog
  split <;> rfl

theorem intervalCount_append (a b : List Timer) :
    intervalCount (a ++ b) = intervalCount a + intervalCount b := by
  simp [intervalCount, List.filter_append]

theorem intervalCount_interval_singleton (i : Nat) (t : String) :
    intervalCount [Timer.interval i t] = 1 := rfl

theorem intervalCount_deadline_singleton (i : Nat) :
    intervalCount [Timer.deadline i] = 0 := rfl

theorem intervalCount_cons_deadline (i : Nat) (ts : List Timer) :
    intervalCount (Timer.deadline i :: ts) = intervalCount ts := by
  simp [intervalCount, Timer.isInterval]

theorem intervalCount_stopLoading (s : ClientState)
    (h : ∀ t ∈ s.timers, t.isInterval = true → s.loadingInterval = some t.id) :
    intervalCount (stopLoading s).timers = 0 := by
  unfold stopLoading
  cases hl : s.loadingInterval with
  | none =>
      simp only [intervalCount, List.length_eq_zero, List.filter_eq_nil_iff]
      intro t ht hint
      rw [hl] at h
      exact Option.noConfusion (h t ht hint)
  | some id =>
      simp only [clearLine, writeStdout, intervalCount, removeTimer,
        List.length_eq_zero, List.filter_eq_nil_iff]
      intro t ht hint
      rw [List.mem_filter] at ht
      have := h t ht.1 hint
      rw [hl] at this
      have hid : t.id = id := by exact Option.some.inj this.symm
      simpa [hid] using ht.2

theorem stopLoading_keeps_other_deadline (s : ClientState) (d : Nat)
    (h2 : Timer.deadline d ∈ s.timers) (h3 : s.loadingInterval ≠ some d) :
    Timer.deadline d ∈ (stopLoading s).timers := by
  unfold stopLoading
  cases hl : s.loadingInterval with
  | none => exact h2
  | some id =>
      simp only [clearLine, writeStdout, removeTimer]
      rw [List.mem_filter]
      refine ⟨h2, ?_⟩
      have hne : d ≠ id := fun hEq => h3 (by rw [hl, hEq])
      simpa [Timer.id] using hne

theorem fireTimer_deadline_clears (s : ClientState) (i : Nat)
    (h : s.timers.find? (fun t => t.id == i) = some (Timer.deadline i)) :
    (fireTimer s i).loadingInterval = none := by
  simp only [fireTimer, h]
  exact stopLoading_loadingInterval _

/- ### Concrete states used by counterexamples and witnesses -/

/-- The state after `startLoading("A", 1000)` from the initial state: a
deadline `setTimeout` (handle 0) and a spinner interval (handle 1) are armed. -/
def loadingWithDeadline : ClientState :=
  handleEvent (initState false) (.startLoadingEvent "A" (some 1000))

/-- A state reached by `startLoading("A", 1000)` then `startLoading("B", null)`
from the initial state: the deadline `setTimeout` armed by the first call
(handle 0) is still armed while the second session's interval (handle 2) runs. -/
def startTwiceState : ClientState :=
  handleEvent loadingWithDeadline (.startLoadingEvent "B" none)

/-- A plain loading session with no deadline, used as a demo input state. -/
def loadingDemo : ClientState :=
  handleEvent (initState false) (.startLoadingEvent "Working" none)

/- ### Claim theorems -/

/-- Claim C3: a spawn failure travels as a promise rejection carrying
`{exitCode: -1, stdout: "", stderr: err.message}`, and the `runCommand`
handler still acknowledges, with exactly that `CommandResponse`. -/
theorem spawn_failure_rejected_then_acked (msg : String) :
    runCommandResult (.errorEvent msg) =
      .rejected { exitCode := -1, stdout := "", stderr := msg } ∧
    runCommandAck (.errorEvent msg) =
      { exitCode := -1, stdout := "", stderr := msg } :=
  ⟨rfl, rfl⟩

/-- Claim C4: a non-null `stdin` is written to the child's standard input as
exactly that string and the stream is closed right after the write; a null
`stdin` produces no action on the child's standard input at all. -/
theorem stdin_written_verbatim_then_closed (s : String) :
    stdinActions (some s) = [.write s, .close] ∧
    writtenInput (stdinActions (some s)) = s ∧
    closedAfterWrites (stdinActions (some s)) = true ∧
    stdinActions none = [] := by
  refine ⟨rfl, ?_, rfl, rfl⟩
  simp [stdinActions, writtenInput]

/-- Claim C5: the request's `timeoutMs` is handed to `exec` as its `timeout`
option, and when that deadline kills the child, `runCommand` resolves with
`exitCode = -1` and the output captured before termination. -/
theorem timeout_resolves_sentinel (p : CommandPayload) (tm : Nat)
    (out err : String) (h : p.timeoutMs = some tm) :
    execTimeoutOption p = some tm ∧
    runCommandResult (execOutcomeOfTimeout out err) =
      .resolved { exitCode := -1, stdout := out, stderr := err } :=
  ⟨h, rfl⟩

theorem timeout_resolves_sentinel_witness :
    execTimeoutOption { command := "sleep 10", stdin := none, timeoutMs := some 200 }
      = some 200 ∧
    runCommandResult (execOutcomeOfTimeout "partial out" "") =
      .resolved { exitCode := -1, stdout := "partial out", stderr := "" } :=
  timeout_resolves_sentinel
    { command := "sleep 10", stdin := none, timeoutMs := some 200 } 200
    "partial out" "" rfl

/-- Claim C7: a child that runs to a normal exit with status `c` makes
`runCommand` resolve with `exitCode = c` and the captured streams verbatim:
`c = 0` takes the no-error branch, and a nonzero `c` arrives as `error.code`
and survives the `error.code || -1` coercion unchanged. -/
theorem normal_exit_propagates_code (c : Int) (out err : String) :
    runCommandResult (execOutcomeOfExit c out err) =
      .resolved { exitCode := c, stdout := out, stderr := err } := by
  by_cases h : c = 0 <;>
    simp [execOutcomeOfExit, runCommandResult, execCallback, jsCodeOrNegOne, h]

/-- Claim C1 (counterexample): after `startLoading("A", 1000)` followed by
`startLoading("B", null)`, the deadline `setTimeout` armed by the first call
(handle 0) is still armed — contrary to the claim that no deadline timer from
the earlier call remains — and when it fires it stops the second session. -/
theorem old_deadline_survives_and_kills_new_session :
    Timer.deadline 0 ∈ startTwiceState.timers ∧
    startTwiceState.loadingInterval = some 2 ∧
    (handleEvent startTwiceState (.timerFire 0)).loadingInterval = none := by
  decide

/-- Claim C1 (amended): a `startLoading` while a session is active cancels
the previous spinner redraw interval, leaving exactly one redraw interval
armed; but a deadline timer armed by an earlier `startLoading` is not
cancelled — it stays armed across the new `startLoading`, and firing an armed
deadline timer stops whatever loading session is active at that moment. -/
theorem startLoading_cancels_interval_not_deadline
    (s sAny : ClientState) (text : String) (timeoutMs : Option Nat) (d i : Nat)
    (h1 : ∀ t ∈ s.timers, t.isInterval = true → s.loadingInterval = some t.id)
    (h2 : Timer.deadline d ∈ s.timers)
    (h3 : s.loadingInterval ≠ some d)
    (h4 : sAny.timers.find? (fun t => t.id == i) = some (Timer.deadline i)) :
    intervalCount (startLoading s text timeoutMs).timers = 1 ∧
    Timer.deadline d ∈ (startLoading s text timeoutMs).timers ∧
    (fireTimer sAny i).loadingInterval = none := by
  refine ⟨?_, ?_, fireTimer_deadline_clears sAny i h4⟩
  · have h0 := intervalCount_stopLoading s h1
    cases timeoutMs <;>
      simp [startLoading, intervalCount_append, debugLog_timers, h0,
        intervalCount_interval_singleton, intervalCount_deadline_singleton,
        intervalCount_cons_deadline]
  · have hmem := stopLoading_keeps_other_deadline s d h2 h3
    cases timeoutMs <;>
      simp [startLoading, debugLog_timers, List.mem_append, hmem]

theorem startLoading_cancels_interval_not_deadline_witness :
    intervalCount (startLoading loadingWithDeadline "B" none).timers = 1 ∧
    Timer.deadline 0 ∈ (startLoading loadingWithDeadline "B" none).timers ∧
    (fireTimer startTwiceState 0).loadingInterval = none :=
  startLoading_cancels_interval_not_deadline loadingWithDeadline startTwiceState
    "B" none 0 0 (by decide) (by decide) (by decide) (by decide)

/-- Claim C2: a `print` event while an interval is armed clears the status
line, writes the text verbatim, rewrites the last-known status line, and
leaves the loading state untouched: same recorded interval, same armed
timers, same spinner index, same remembered line. -/
theorem print_during_loading_preserves_state
    (s : ClientState) (text : String)
    (h : s.exited = none) (hl : s.loadingInterval.isSome = true) :
    (handleEvent s (.print text)).output =
      s.output ++ [clearLineSeq, text, s.lastLoadingLineWritten] ∧
    (handleEvent s (.print text)).loadingInterval = s.loadingInterval ∧
    (handleEvent s (.print text)).timers = s.timers ∧
    (handleEvent s (.print text)).spinnerIndex = s.spinnerIndex ∧
    (handleEvent s (.print text)).lastLoadingLineWritten = s.lastLoadingLineWritten ∧
    (handleEvent s (.print text)).exited = none := by
  simp [handleEvent, h, handlePrint, hl, clearLine, writeStdout, writeLastLoadingLine]

theorem print_during_loading_preserves_state_witness :
    (handleEvent loadingDemo (.print "hello")).output =
      loadingDemo.output ++ [clearLineSeq, "hello", loadingDemo.lastLoadingLineWritten] ∧
    (handleEvent loadingDemo (.print "hello")).loadingInterval =
      loadingDemo.loadingInterval ∧
    (handleEvent loadingDemo (.print "hello")).timers = loadingDemo.timers ∧
    (handleEvent loadingDemo (.print "hello")).spinnerIndex = loadingDemo.spinnerIndex ∧
    (handleEvent loadingDemo (.print "hello")).lastLoadingLineWritten =
      loadingDemo.lastLoadingLineWritten ∧
    (handleEvent loadingDemo (.print "hello")).exited = none :=
  print_during_loading_preserves_state loadingDemo "hello" (by decide) (by decide)

/-- Claim C6: a `terminate` event and a `disconnect` event each end the
process with exit code 0, and after either one no further inbound event
changes the state — every subsequent dispatch is a no-op. -/
theorem terminate_disconnect_exit_zero
    (s : ClientState) (e e' : Event) (h : s.exited = none) :
    (handleEvent s .terminate).exited = some 0 ∧
    (handleEvent s .disconnect).exited = some 0 ∧
    handleEvent (handleEvent s .terminate) e = handleEvent s .terminate ∧
    handleEvent (handleEvent s .disconnect) e' = handleEvent s .disconnect := by
  have ht : (handleEvent s .terminate).exited = some 0 := by
    simp [handleEvent, h]
  have hd : (handleEvent s .disconnect).exited = some 0 := by
    simp [handleEvent, h]
  exact ⟨ht, hd, handleEvent_after_exit _ e 0 ht, handleEvent_after_exit _ e' 0 hd⟩

theorem terminate_disconnect_exit_zero_witness :
    (handleEvent (initState false) .terminate).exited = some 0 ∧
    (handleEvent (initState false) .disconnect).exited = some 0 ∧
    handleEvent (handleEvent (initState false) .terminate) .getEnvInfo =
      handleEvent (initState false) .terminate ∧
    handleEvent (handleEvent (initState false) .disconnect) (.print "x") =
      handleEvent (initState false) .disconnect :=
  terminate_disconnect_exit_zero (initState false) .getEnvInfo (.print "x") rfl

/-- Claim C8 (counterexample): a `readStdin` request answered by the input
chunk `"a\nb\n"` resolves with that whole chunk, which is not exactly one
line — the handler takes the first `data` chunk verbatim, it does not await
one line. -/
theorem readStdin_chunk_not_one_line :
    (handleEvent (handleEvent loadingDemo .readStdin)
        (.stdinData "a\nb\n")).resolvedLines = ["a\nb\n"] ∧
    isExactlyOneLine "a\nb\n" = false := by
  decide

/-- Claim C8 (amended): a `readStdin` event while Loading performs a full
`stopLoading` first (interval cancelled, line cleared) before listening for
input; the request then resolves with the first chunk of data from the local
input source, verbatim, after which the listener is removed and the terminal
stays out of Loading. -/
theorem readStdin_stops_loading_then_resolves_chunk
    (s : ClientState) (chunk : String)
    (h : s.exited = none) (hl : s.loadingInterval.isSome = true) :
    (handleEvent s .readStdin).loadingInterval = none ∧
    (handleEvent s .readStdin).output = s.output ++ [clearLineSeq] ∧
    (handleEvent s .readStdin).stdinListening = true ∧
    (handleEvent (handleEvent s .readStdin) (.stdinData chunk)).resolvedLines =
      (handleEvent s .readStdin).resolvedLines ++ [chunk] ∧
    (handleEvent (handleEvent s .readStdin) (.stdinData chunk)).stdinListening
      = false ∧
    (handleEvent (handleEvent s .readStdin) (.stdinData chunk)).loadingInterval
      = none := by
  rcases Option.isSome_iff_exists.mp hl with ⟨id, hli⟩
  simp [handleEvent, h, handleReadStdin, stopLoading, hli, clearLine,
    writeStdout, handleStdinData]

theorem readStdin_stops_loading_then_resolves_chunk_witness :
    (handleEvent loadingDemo .readStdin).loadingInterval = none ∧
    (handleEvent loadingDemo .readStdin).output =
      loadingDemo.output ++ [clearLineSeq] ∧
    (handleEvent loadingDemo .readStdin).stdinListening = true ∧
    (handleEvent (handleEvent loadingDemo .readStdin)
        (.stdinData "hi\n")).resolvedLines =
      (handleEvent loadingDemo .readStdin).resolvedLines ++ ["hi\n"] ∧
    (handleEvent (handleEvent loadingDemo .readStdin)
        (.stdinData "hi\n")).stdinListening = false ∧
    (handleEvent (handleEvent loadingDemo .readStdin)
        (.stdinData "hi\n")).loadingInterval = none :=
  readStdin_stops_loading_then_resolves_chunk loadingDemo "hi\n" (by decide)
    (by decide)

/-- Claim C9 (counterexample): with the debug toggle set, a direct-output
(`print`) event and an input-line (`readStdin`) event produce no diagnostic
log line at all — contrary to the claim that every inbound event, including
these two, is logged when the toggle is set. -/
theorem print_readStdin_not_logged :
    (handleEvent (initState true) (.print "hello")).log = [] ∧
    (handleEvent (initState true) .readStdin).log = [] := by
  decide

/-- Claim C9 (amended): with the debug toggle set, the command-execution,
start/stop-loading, environment, terminate and disconnect events each append
one diagnostic line with the fixed `[CODAPT CLIENT DEBUG]` tag (execution
requests include the command text), but the direct-output and input-line
events append none; with the toggle unset, no event appends any log line. -/
theorem debug_logging_gated
    (s t : ClientState) (p : CommandPayload) (o : ExecOutcome)
    (text : String) (tm : Option Nat) (e : Event)
    (hs : s.exited = none) (hdbg : s.debug = true)
    (htdbg : t.debug = false) :
    (handleEvent s (.runCommand p o)).log =
      s.log ++ ["[CODAPT CLIENT DEBUG] " ++ ("Received command: " ++ p.command)] ∧
    (handleEvent s (.startLoadingEvent text tm)).log =
      s.log ++ ["[CODAPT CLIENT DEBUG] " ++ ("Starting loading: " ++ text ++
        " with timeoutMs=" ++ timeoutMsText tm)] ∧
    (handleEvent s .stopLoadingEvent).log =
      s.log ++ ["[CODAPT CLIENT DEBUG] " ++ "Stopping loading"] ∧
    (handleEvent s .getEnvInfo).log =
      s.log ++ ["[CODAPT CLIENT DEBUG] " ++ "Received getEnvInfo request"] ∧
    (handleEvent s .terminate).log =
      s.log ++ ["[CODAPT CLIENT DEBUG] " ++ "Terminating"] ∧
    (handleEvent s .disconnect).log =
      s.log ++ ["[CODAPT CLIENT DEBUG] " ++ "Disconnected from server, terminating..."] ∧
    (handleEvent s (.print text)).log = s.log ∧
    (handleEvent s .readStdin).log = s.log ∧
    (handleEvent t e).log = t.log := by
  have hsd : (stopLoading s).debug = true := by rw [stopLoading_debug]; exact hdbg
  refine ⟨?_, ?_, ?_, ?_, ?_, ?_, ?_, ?_, handleEvent_log_off t e htdbg⟩
  · simp [handleEvent, hs, debugLog, hdbg]
  · simp [handleEvent, hs, startLoading_log_on s text tm hdbg]
  · simp [handleEvent, hs, debugLog, hsd, stopLoading_log]
  · simp [handleEvent, hs, debugLog, hdbg]
  · simp [handleEvent, hs, debugLog, hdbg]
  · simp [handleEvent, hs, debugLog, hdbg]
  · simp [handleEvent, hs, handlePrint_log]
  · simp [handleEvent, hs, handleReadStdin, stopLoading_log]

theorem debug_logging_gated_witness :
    (handleEvent (initState true)
        (.runCommand { command := "ls", stdin := none, timeoutMs := none }
          (.completed none "" ""))).log =
      (initState true).log ++
        ["[CODAPT CLIENT DEBUG] " ++ ("Received command: " ++ "ls")] ∧
    (handleEvent (initState true) (.startLoadingEvent "Working" none)).log =
      (initState true).log ++
        ["[CODAPT CLIENT DEBUG] " ++ ("Starting loading: " ++ "Working" ++
          " with timeoutMs=" ++ timeoutMsText none)] ∧
    (handleEvent (initState true) .stopLoadingEvent).log =
      (initState true).log ++ ["[CODAPT CLIENT DEBUG] " ++ "Stopping loading"] ∧
    (handleEvent (initState true) .getEnvInfo).log =
      (initState true).log ++
        ["[CODAPT CLIENT DEBUG] " ++ "Received getEnvInfo request"] ∧
    (handleEvent (initState true) .terminate).log =
      (initState true).log ++ ["[CODAPT CLIENT DEBUG] " ++ "Terminating"] ∧
    (handleEvent (initState true) .disconnect).log =
      (initState true).log ++
        ["[CODAPT CLIENT DEBUG] " ++ "Disconnected from server, terminating..."] ∧
    (handleEvent (initState true) (.print "Working")).log = (initState true).log ∧
    (handleEvent (initState true) .readStdin).log = (initState true).log ∧
    (handleEvent (initState false) .getEnvInfo).log = (initState false).log :=
  debug_logging_gated (initState true) (initState false)
    { command := "ls", stdin := none, timeoutMs := none } (.completed none "" "")
    "Working" none .getEnvInfo rfl rfl rfl

/-- Claim C10: the one-shot stdin listener resolves the input-line request
with the first data chunk exactly as it arrived — separator included, not
split on line boundaries — and then detaches. -/
theorem stdin_chunk_resolved_verbatim (s : ClientState) (chunk : String)
    (h : s.exited = none) (hl : s.stdinListening = true) :
    (handleEvent s (.stdinData chunk)).resolvedLines =
      s.resolvedLines ++ [chunk] ∧
    (handleEvent s (.stdinData chunk)).stdinListening = false := by
  simp [handleEvent, h, handleStdinData, hl]

theorem stdin_chunk_resolved_verbatim_witness :
    (handleEvent (handleEvent loadingDemo .readStdin)
        (.stdinData "two\nlines\n")).resolvedLines =
      (handleEvent loadingDemo .readStdin).resolvedLines ++ ["two\nlines\n"] ∧
    (handleEvent (handleEvent loadingDemo .readStdin)
        (.stdinData "two\nlines\n")).stdinListening = false :=
  stdin_chunk_resolved_verbatim (handleEvent loadingDemo .readStdin)
    "two\nlines\n" (by decide) (by decide)

end Codapt
